import Mathlib

/-!
Verification development for the edustack backend (Express/Prisma REST API).

The definitions below are a shallow embedding of the backend route handlers:
database tables become lists of records, Prisma queries become list
operations, JS numbers become `Int`/`ℚ`, and request handlers become pure
functions from a database state (plus request data) to an HTTP status code
and a new database state.  Prisma operations that can throw (updates on
missing rows, unique-constraint violations) are modelled with `Option`; an
uncaught throw is routed by Express to the error handler, which we render as
status 500 together with the database state at the moment of the throw.
A `failAt` oracle parameter models an individual database statement failing
(for instance because the connection drops): statement number `k` of a
handler fails exactly when `failAt = some k`.  This makes transactional
(all-or-nothing) and non-transactional (sequential) write behaviour
observably different in the model.
-/

namespace EduStack

/-- JS truthiness of an optional boolean request field
(`isCompleted && ...` in the handlers): only a present `true` is truthy. -/
def truthyOptBool : Option Bool → Bool
  | some true => true
  | _ => false

/-- JS `x || undefined` in a Prisma `update` position: an absent field or a
falsy number (`0`) yields `undefined`, which leaves the stored value
unchanged; any other number overwrites it. -/
def jsUpdateNum : Option Int → Int → Int
  | some n, old => if n = 0 then old else n
  | none, old => old

/-- JS `x || 0` in a Prisma `create` position. -/
def jsCreateNum : Option Int → Int
  | some n => n
  | none => 0

inductive EnrollStatus
  | ACTIVE
  | COMPLETED
  | DROPPED
deriving DecidableEq

inductive CourseState
  | DRAFT
  | PUBLISHED
  | ARCHIVED
deriving DecidableEq

inductive PayStatus
  | PENDING
  | COMPLETED
  | FAILED
deriving DecidableEq

structure Course where
  id : Nat
  tutorId : Nat
  title : String
  price : ℚ
  currency : String
  isPublished : Bool
  status : CourseState
  totalEnrollments : Int
  totalRevenue : ℚ
  averageRating : ℚ
  totalReviews : Int
deriving DecidableEq

/-- A course section (`Section` in the Prisma schema). -/
structure CSection where
  id : Nat
  courseId : Nat
  isActive : Bool
deriving DecidableEq

structure Lesson where
  id : Nat
  sectionId : Nat
  isActive : Bool
deriving DecidableEq

structure Enrollment where
  id : Nat
  studentId : Nat
  courseId : Nat
  status : EnrollStatus
  progress : ℚ
  completedAt : Option Nat
  lastAccessedAt : Option Nat
deriving DecidableEq

structure ProgressRec where
  studentId : Nat
  lessonId : Nat
  enrollmentId : Nat
  timeSpent : Int
  lastPosition : Int
  isCompleted : Bool
  completedAt : Option Nat
deriving DecidableEq

structure Student where
  userId : Nat
  totalCoursesEnrolled : Int
  totalCoursesCompleted : Int
deriving DecidableEq

structure Tutor where
  id : Nat
  totalStudents : Int
  totalEarnings : ℚ
  totalReviews : Int
deriving DecidableEq

structure Certificate where
  studentId : Nat
  courseId : Nat
  enrollmentId : Nat
  certificateNumber : String
deriving DecidableEq

structure Payment where
  id : Nat
  userId : Nat
  courseId : Nat
  amount : ℚ
  status : PayStatus
  stripePaymentId : String
  paidAt : Option Nat
deriving DecidableEq

structure Review where
  studentId : Nat
  courseId : Nat
  rating : Int
  title : String
  content : String
  isPublished : Bool
  isVerified : Bool
deriving DecidableEq

/-- The relational state the enrollment/payment/review routes act on. -/
structure DB where
  courses : List Course
  sections : List CSection
  lessons : List Lesson
  enrollments : List Enrollment
  progressRecords : List ProgressRec
  students : List Student
  tutors : List Tutor
  certificates : List Certificate
  payments : List Payment
  reviews : List Review
deriving DecidableEq

/-- The authenticated user attached to `req.user` by the `auth` middleware;
`studentProfile` is the included student profile row (or `none`). -/
structure AuthUser where
  id : Nat
  studentProfile : Option Nat
deriving DecidableEq

/-- Prisma `update`/`updateMany` on the rows matching `p`. -/
def updateWhere (p : α → Bool) (f : α → α) (l : List α) : List α :=
  l.map fun x => if p x then f x else x

/-- The `studentId_courseId` unique key of `Enrollment`. -/
def enrollKey (studentId courseId : Nat) (e : Enrollment) : Bool :=
  decide (e.studentId = studentId) && decide (e.courseId = courseId)

/-- The `studentId_lessonId` unique key of `Progress`. -/
def progressKey (studentId lessonId : Nat) (p : ProgressRec) : Bool :=
  decide (p.studentId = studentId) && decide (p.lessonId = lessonId)

/-- The `userId` unique key of `Student`. -/
def studentKey (userId : Nat) (s : Student) : Bool :=
  decide (s.userId = userId)

/-- The `id` unique key of `Course`. -/
def courseKey (courseId : Nat) (c : Course) : Bool :=
  decide (c.id = courseId)

/-- The `id` unique key of `Tutor`. -/
def tutorKey (tutorId : Nat) (t : Tutor) : Bool :=
  decide (t.id = tutorId)

/-- The `studentId_courseId` unique key of `Review`. -/
def reviewKey (studentId courseId : Nat) (r : Review) : Bool :=
  decide (r.studentId = studentId) && decide (r.courseId = courseId)

/-- The `stripePaymentId` unique key of `Payment`. -/
def paymentKey (stripeId : String) (p : Payment) : Bool :=
  decide (p.stripePaymentId = stripeId)

/-- `prisma.enrollment.findUnique({ where: { studentId_courseId } })`. -/
def findEnrollment (db : DB) (studentId courseId : Nat) : Option Enrollment :=
  db.enrollments.find? (enrollKey studentId courseId)

/-- `prisma.course.findUnique({ where: { id, isPublished: true, status: 'PUBLISHED' } })`. -/
def findPublishedCourse (db : DB) (courseId : Nat) : Option Course :=
  db.courses.find? fun c =>
    decide (c.id = courseId) && c.isPublished && decide (c.status = CourseState.PUBLISHED)

/-- `prisma.lesson.findFirst({ where: { id: lessonId, section: { courseId } } })`. -/
def findLessonInCourse (db : DB) (lessonId courseId : Nat) : Option Lesson :=
  db.lessons.find? fun l =>
    decide (l.id = lessonId) &&
      db.sections.any fun s => decide (s.id = l.sectionId) && decide (s.courseId = courseId)

/-- Body of `PUT /api/enrollments/:courseId/progress/:lessonId`
(`{ timeSpent, lastPosition, isCompleted }`, each possibly absent). -/
structure ProgressBody where
  timeSpent : Option Int
  lastPosition : Option Int
  isCompleted : Option Bool
deriving DecidableEq

/-- `prisma.progress.upsert` of the progress route.  This statement is only
reached when `isCompleted` is falsy (a truthy `isCompleted` makes the
handler throw while building the argument object, see `updateProgress`), so
the `update` branch leaves `isCompleted`/`completedAt` unchanged and the
`create` branch stores `isCompleted: false` with no `completedAt`. -/
def upsertProgress (db : DB) (studentId lessonId enrollmentId : Nat) (body : ProgressBody) : DB :=
  if db.progressRecords.any (progressKey studentId lessonId) then
    { db with progressRecords := (updateWhere (progressKey studentId lessonId)
        (fun p => { p with
            timeSpent := jsUpdateNum body.timeSpent p.timeSpent,
            lastPosition := jsUpdateNum body.lastPosition p.lastPosition })
        db.progressRecords) }
  else
    { db with progressRecords := (db.progressRecords ++
        [{ studentId := studentId, lessonId := lessonId, enrollmentId := enrollmentId,
           timeSpent := jsCreateNum body.timeSpent,
           lastPosition := jsCreateNum body.lastPosition,
           isCompleted := false, completedAt := none }]) }

/-- The `totalLessons` query: lessons with `isActive: true` whose section has
this `courseId` and `isActive: true`. -/
def countTotalLessons (db : DB) (courseId : Nat) : Nat :=
  db.lessons.countP fun l =>
    l.isActive &&
      db.sections.any fun s => decide (s.id = l.sectionId) && decide (s.courseId = courseId) && s.isActive

/-- Membership of a lesson id in the course, with no activity filter
(`lesson: { section: { courseId } }` of the `completedLessons` query). -/
def lessonBelongsToCourse (db : DB) (courseId lessonId : Nat) : Bool :=
  db.lessons.any fun l =>
    decide (l.id = lessonId) &&
      db.sections.any fun s => decide (s.id = l.sectionId) && decide (s.courseId = courseId)

/-- The `completedLessons` query: completed progress records of the student
for lessons of the course, with no `isActive` filter on lesson or section. -/
def countCompletedLessons (db : DB) (studentId courseId : Nat) : Nat :=
  db.progressRecords.countP fun p =>
    decide (p.studentId = studentId) && p.isCompleted && lessonBelongsToCourse db courseId p.lessonId

/-- `totalLessons > 0 ? (completedLessons / totalLessons) * 100 : 0`. -/
def courseProgressOf (db : DB) (studentId courseId : Nat) : ℚ :=
  if 0 < countTotalLessons db courseId then
    ((countCompletedLessons db studentId courseId : ℚ) / (countTotalLessons db courseId : ℚ)) * 100
  else 0

/-- The `prisma.enrollment.update` of the progress route: always writes
`progress` and `lastAccessedAt`; additionally flips `status`/`completedAt`
when the recomputed progress is exactly 100 and the previously read
enrollment status (`enrollment.status`, not the updated row) was not
COMPLETED. -/
def writeEnrollmentProgress (db : DB) (studentId courseId : Nat) (pct : ℚ)
    (prevStatus : EnrollStatus) (now : Nat) : DB :=
  { db with enrollments := (updateWhere (enrollKey studentId courseId)
      (fun e =>
        if decide (pct = 100) && decide (prevStatus ≠ EnrollStatus.COMPLETED) then
          { e with progress := pct, lastAccessedAt := some now,
                   status := EnrollStatus.COMPLETED, completedAt := some now }
        else
          { e with progress := pct, lastAccessedAt := some now })
      db.enrollments) }

/-- The `prisma.student.update` that bumps `totalCoursesCompleted`. -/
def applyStudentCompletedInc (db : DB) (studentId : Nat) : DB :=
  { db with students := (updateWhere (studentKey studentId)
      (fun s => { s with totalCoursesCompleted := s.totalCoursesCompleted + 1 }) db.students) }

/-- The `prisma.certificate.create` of the progress route. -/
def applyAddCertificate (db : DB) (studentId courseId enrollmentId : Nat)
    (certNum : String) : DB :=
  { db with certificates := (db.certificates ++
      [{ studentId := studentId, courseId := courseId, enrollmentId := enrollmentId,
         certificateNumber := certNum }]) }

/-- The sequence of database writes of the progress route after validation.
The four statements (progress upsert, enrollment update, student-stats
update, certificate create) are executed one after another on `req.prisma`
directly — there is no surrounding `$transaction` — so a statement that
fails (its index hit by `failAt`, or a missing student row) leaves the
writes already performed in place and yields a 500 via `next(error)`. -/
def runProgressWrites (db : DB) (studentId lessonId courseId enrollmentId : Nat)
    (prevStatus : EnrollStatus) (body : ProgressBody) (now : Nat) (certNum : String)
    (failAt : Option Nat) : Nat × DB :=
  if failAt = some 1 then (500, db) else
  let db1 := upsertProgress db studentId lessonId enrollmentId body
  let pct := courseProgressOf db1 studentId courseId
  if failAt = some 2 then (500, db1) else
  let db2 := writeEnrollmentProgress db1 studentId courseId pct prevStatus now
  if decide (pct = 100) && decide (prevStatus ≠ EnrollStatus.COMPLETED) then
    if failAt = some 3 then (500, db2) else
    match db2.students.find? (studentKey studentId) with
    | none => (500, db2)
    | some _ =>
      let db3 := applyStudentCompletedInc db2 studentId
      if failAt = some 4 then (500, db3) else
      (200, applyAddCertificate db3 studentId courseId enrollmentId certNum)
  else (200, db2)

/-- `PUT /api/enrollments/:courseId/progress/:lessonId` behind `auth` and
`isStudent`.  When `isCompleted` is truthy, evaluating the upsert's `update`
object reads `progress?.completedAt` while `progress` is the `const` being
initialized by that very `upsert` call, so the handler throws a
`ReferenceError` before any database statement runs; the `catch` routes it
to `next(error)` (500) with the state untouched. -/
def updateProgress (db : DB) (user : AuthUser) (courseId lessonId : Nat)
    (body : ProgressBody) (now : Nat) (certNum : String) (failAt : Option Nat) : Nat × DB :=
  if user.studentProfile.isNone then (403, db) else
  match findEnrollment db user.id courseId with
  | none => (404, db)
  | some enr =>
    match findLessonInCourse db lessonId courseId with
    | none => (404, db)
    | some _ =>
      if truthyOptBool body.isCompleted then (500, db)
      else runProgressWrites db user.id lessonId courseId enr.id enr.status body now certNum failAt

/-- `POST /api/enrollments/:courseId` (free-course enrollment).  The four
writes of the free path run sequentially without a transaction; a missing
tutor or student row makes the corresponding Prisma `update` throw (500)
with the earlier writes kept.  `newEnrollId` stands for the id the database
generates for the created enrollment. -/
def enroll (db : DB) (user : AuthUser) (courseId : Nat) (newEnrollId : Nat) : Nat × DB :=
  if user.studentProfile.isNone then (403, db) else
  match findPublishedCourse db courseId with
  | none => (404, db)
  | some course =>
    if (findEnrollment db user.id courseId).isSome then (400, db)
    else if course.price = 0 then
      let db1 := { db with enrollments := (db.enrollments ++
        [({ id := newEnrollId, studentId := user.id, courseId := courseId,
            status := EnrollStatus.ACTIVE, progress := 0,
            completedAt := none, lastAccessedAt := none } : Enrollment)]) }
      let db2 := { db1 with courses := (updateWhere (courseKey courseId)
          (fun c => { c with totalEnrollments := c.totalEnrollments + 1 }) db1.courses) }
      match db2.tutors.find? (tutorKey course.tutorId) with
      | none => (500, db2)
      | some _ =>
        let db3 := { db2 with tutors := (updateWhere (tutorKey course.tutorId)
            (fun t => { t with totalStudents := t.totalStudents + 1 }) db2.tutors) }
        match db3.students.find? (studentKey user.id) with
        | none => (500, db3)
        | some _ =>
          (201, { db3 with students := (updateWhere (studentKey user.id)
              (fun s => { s with totalCoursesEnrolled := s.totalCoursesEnrolled + 1 }) db3.students) })
    else (402, db)

/-- The composite state change of a successful free enrollment: one ACTIVE
enrollment appended and the three counters bumped. -/
def enrollEffects (db : DB) (studentId courseId tutorId newEnrollId : Nat) : DB :=
  { db with
      enrollments := (db.enrollments ++
        [({ id := newEnrollId, studentId := studentId, courseId := courseId,
            status := EnrollStatus.ACTIVE, progress := 0,
            completedAt := none, lastAccessedAt := none } : Enrollment)]),
      courses := (updateWhere (courseKey courseId)
        (fun c => { c with totalEnrollments := c.totalEnrollments + 1 }) db.courses),
      tutors := (updateWhere (tutorKey tutorId)
        (fun t => { t with totalStudents := t.totalStudents + 1 }) db.tutors),
      students := (updateWhere (studentKey studentId)
        (fun s => { s with totalCoursesEnrolled := s.totalCoursesEnrolled + 1 }) db.students) }

/-- `GET /api/enrollments`: a read-only listing of the student's
enrollments (optionally filtered by status); pagination and response
ordering ornament the same row set and are elided. -/
def listEnrollments (db : DB) (user : AuthUser) (statusFilter : Option EnrollStatus) :
    Nat × DB × List Enrollment :=
  if user.studentProfile.isNone then (403, db, []) else
    (200, db, db.enrollments.filter fun e =>
      decide (e.studentId = user.id) &&
        match statusFilter with
        | some st => decide (e.status = st)
        | none => true)

/-- `GET /api/enrollments/:courseId`: read-only enrollment lookup. -/
def getEnrollment (db : DB) (user : AuthUser) (courseId : Nat) : Nat × DB :=
  if user.studentProfile.isNone then (403, db) else
  match findEnrollment db user.id courseId with
  | none => (404, db)
  | some _ => (200, db)

/-- The `prisma.$transaction` body of `DELETE /api/enrollments/:courseId`:
progress deleteMany, enrollment delete, course decrement, student
decrement.  `none` means some statement failed, in which case the ORM rolls
the whole transaction back. -/
def txUnenroll (db : DB) (enr : Enrollment) (studentId courseId : Nat)
    (failAt : Option Nat) : Option DB :=
  if failAt = some 1 then none else
  let db1 := { db with progressRecords :=
      (db.progressRecords.filter fun p => !decide (p.enrollmentId = enr.id)) }
  if failAt = some 2 then none else
  let db2 := { db1 with enrollments := (db1.enrollments.filter fun e => !decide (e.id = enr.id)) }
  if failAt = some 3 then none else
  match db2.courses.find? (courseKey courseId) with
  | none => none
  | some _ =>
    let db3 := { db2 with courses := (updateWhere (courseKey courseId)
        (fun c => { c with totalEnrollments := c.totalEnrollments - 1 }) db2.courses) }
    if failAt = some 4 then none else
    match db3.students.find? (studentKey studentId) with
    | none => none
    | some _ =>
      some { db3 with students := (updateWhere (studentKey studentId)
          (fun s => { s with totalCoursesEnrolled := s.totalCoursesEnrolled - 1 }) db3.students) }

/-- `DELETE /api/enrollments/:courseId` behind `auth` and `isStudent`:
404 when not enrolled, 400 for a COMPLETED enrollment, otherwise the
transactional deletion; a failed transaction leaves the state unchanged. -/
def unenroll (db : DB) (user : AuthUser) (courseId : Nat) (failAt : Option Nat) : Nat × DB :=
  if user.studentProfile.isNone then (403, db) else
  match findEnrollment db user.id courseId with
  | none => (404, db)
  | some enr =>
    if enr.status = EnrollStatus.COMPLETED then (400, db)
    else
      match txUnenroll db enr user.id courseId failAt with
      | none => (500, db)
      | some db2 => (200, db2)

/-- The composite state change of a successful unenrollment. -/
def unenrollEffects (db : DB) (enr : Enrollment) (studentId courseId : Nat) : DB :=
  { db with
      progressRecords := (db.progressRecords.filter fun p => !decide (p.enrollmentId = enr.id)),
      enrollments := (db.enrollments.filter fun e => !decide (e.id = enr.id)),
      courses := (updateWhere (courseKey courseId)
        (fun c => { c with totalEnrollments := c.totalEnrollments - 1 }) db.courses),
      students := (updateWhere (studentKey studentId)
        (fun s => { s with totalCoursesEnrolled := s.totalCoursesEnrolled - 1 }) db.students) }

/-- The `metadata` a payment intent carries (`courseId`, `studentId`,
`tutorId`, set when the intent is created). -/
structure IntentMeta where
  courseId : Nat
  studentId : Nat
  tutorId : Nat
deriving DecidableEq

/-- A Stripe `payment_intent` object as used by the webhook handler:
`amount` is in cents. -/
structure PaymentIntent where
  id : String
  amount : ℚ
  metadata : IntentMeta
deriving DecidableEq

/-- The `prisma.$transaction` body of `handlePaymentSuccess`: payment
update, enrollment create, course stats, tutor stats, student stats, in
this order.  `none` means some statement failed (injected via `failAt`, a
missing row, or a duplicate enrollment key) and the transaction rolls
back. -/
def txPaymentSuccess (db : DB) (intent : PaymentIntent) (now : Nat) (newEnrollId : Nat)
    (failAt : Option Nat) : Option DB :=
  if failAt = some 1 then none else
  match db.payments.find? (paymentKey intent.id) with
  | none => none
  | some _ =>
    let db1 := { db with payments := (updateWhere (paymentKey intent.id)
        (fun p => { p with status := PayStatus.COMPLETED, paidAt := some now }) db.payments) }
    if failAt = some 2 then none else
    if (findEnrollment db1 intent.metadata.studentId intent.metadata.courseId).isSome then none else
    let db2 := { db1 with enrollments := (db1.enrollments ++
        [({ id := newEnrollId, studentId := intent.metadata.studentId,
            courseId := intent.metadata.courseId, status := EnrollStatus.ACTIVE,
            progress := 0, completedAt := none, lastAccessedAt := none } : Enrollment)]) }
    if failAt = some 3 then none else
    match db2.courses.find? (courseKey intent.metadata.courseId) with
    | none => none
    | some _ =>
      let db3 := { db2 with courses := (updateWhere (courseKey intent.metadata.courseId)
          (fun c => { c with totalEnrollments := c.totalEnrollments + 1,
                             totalRevenue := c.totalRevenue + intent.amount / 100 }) db2.courses) }
      if failAt = some 4 then none else
      match db3.tutors.find? (tutorKey intent.metadata.tutorId) with
      | none => none
      | some _ =>
        let db4 := { db3 with tutors := (updateWhere (tutorKey intent.metadata.tutorId)
            (fun t => { t with totalStudents := t.totalStudents + 1,
                               totalEarnings := t.totalEarnings + intent.amount / 100 * (85 / 100) })
            db3.tutors) }
        if failAt = some 5 then none else
        match db4.students.find? (studentKey intent.metadata.studentId) with
        | none => none
        | some _ =>
          some { db4 with students := (updateWhere (studentKey intent.metadata.studentId)
              (fun s => { s with totalCoursesEnrolled := s.totalCoursesEnrolled + 1 }) db4.students) }

/-- `handlePaymentSuccess` (the `payment_intent.succeeded` branch of the
webhook): runs the transaction; its own `catch` swallows any error, so a
failed transaction leaves the database exactly as it was. -/
def handlePaymentSuccess (db : DB) (intent : PaymentIntent) (now : Nat) (newEnrollId : Nat)
    (failAt : Option Nat) : DB :=
  (txPaymentSuccess db intent now newEnrollId failAt).getD db

/-- The composite state change of a successful `payment_intent.succeeded`
webhook: payment COMPLETED with `paidAt`, one ACTIVE enrollment, course
`totalEnrollments`+1 and `totalRevenue`+amount, tutor `totalStudents`+1 and
`totalEarnings`+85% of the amount, student `totalCoursesEnrolled`+1. -/
def paymentSuccessEffects (db : DB) (intent : PaymentIntent) (now : Nat) (newEnrollId : Nat) : DB :=
  { db with
      payments := (updateWhere (paymentKey intent.id)
        (fun p => { p with status := PayStatus.COMPLETED, paidAt := some now }) db.payments),
      enrollments := (db.enrollments ++
        [({ id := newEnrollId, studentId := intent.metadata.studentId,
            courseId := intent.metadata.courseId, status := EnrollStatus.ACTIVE,
            progress := 0, completedAt := none, lastAccessedAt := none } : Enrollment)]),
      courses := (updateWhere (courseKey intent.metadata.courseId)
        (fun c => { c with totalEnrollments := c.totalEnrollments + 1,
                           totalRevenue := c.totalRevenue + intent.amount / 100 }) db.courses),
      tutors := (updateWhere (tutorKey intent.metadata.tutorId)
        (fun t => { t with totalStudents := t.totalStudents + 1,
                           totalEarnings := t.totalEarnings + intent.amount / 100 * (85 / 100) })
        db.tutors),
      students := (updateWhere (studentKey intent.metadata.studentId)
        (fun s => { s with totalCoursesEnrolled := s.totalCoursesEnrolled + 1 }) db.students) }

/-- The course's published reviews (`where: { courseId, isPublished: true }`). -/
def publishedReviewsOf (db : DB) (courseId : Nat) : List Review :=
  db.reviews.filter fun r => decide (r.courseId = courseId) && r.isPublished

/-- The `review.aggregate`/`review.count` recomputation the review routes
store back on the course: `_avg.rating || 0` is the mean rating of the
published reviews, `0` when there are none. -/
def avgPublishedRating (db : DB) (courseId : Nat) : ℚ :=
  let pubs := publishedReviewsOf db courseId
  if pubs.length = 0 then 0
  else ((pubs.map fun r => (r.rating : ℚ)).sum) / (pubs.length : ℚ)

/-- Body of `POST /api/reviews/:courseId` after Joi validation
(`rating` required, 1..5). -/
structure ReviewBody where
  rating : Int
  title : String
  content : String
deriving DecidableEq

/-- Body of `PUT /api/reviews/:courseId` after Joi validation: only
`rating`/`title`/`content` survive (`stripUnknown: true`), each optional. -/
structure ReviewUpdateBody where
  rating : Option Int
  title : Option String
  content : Option String
deriving DecidableEq

/-- Prisma `review.update({ data: updateData })`: only the keys present in
the validated body are written. -/
def applyReviewUpdate (body : ReviewUpdateBody) (r : Review) : Review :=
  { r with
      rating := body.rating.getD r.rating,
      title := body.title.getD r.title,
      content := body.content.getD r.content }

/-- `prisma.review.create` of the review route: always `isPublished: true`,
`isVerified` when the enrollment is COMPLETED. -/
def addReview (db : DB) (studentId courseId : Nat) (body : ReviewBody) (verified : Bool) : DB :=
  { db with reviews := (db.reviews ++
      [({ studentId := studentId, courseId := courseId, rating := body.rating,
          title := body.title, content := body.content, isPublished := true,
          isVerified := verified } : Review)]) }

/-- The `course.update` storing the recomputed average rating and
published-review count (create/delete paths). -/
def writeCourseReviewStats (db : DB) (courseId : Nat) : DB :=
  { db with courses := (updateWhere (courseKey courseId)
      (fun c => { c with averageRating := avgPublishedRating db courseId,
                         totalReviews := ((publishedReviewsOf db courseId).length : Int) })
      db.courses) }

/-- The `course.update` storing only the recomputed average rating
(update path, when the body carries a rating). -/
def writeCourseAvgOnly (db : DB) (courseId : Nat) : DB :=
  { db with courses := (updateWhere (courseKey courseId)
      (fun c => { c with averageRating := avgPublishedRating db courseId }) db.courses) }

/-- `prisma.review.update` applied to the author's review row. -/
def applyReviewEdit (db : DB) (studentId courseId : Nat) (body : ReviewUpdateBody) : DB :=
  { db with reviews :=
      (updateWhere (reviewKey studentId courseId) (applyReviewUpdate body) db.reviews) }

/-- `prisma.review.delete` of the author's review row. -/
def removeReview (db : DB) (studentId courseId : Nat) : DB :=
  { db with reviews := (db.reviews.filter fun r => !reviewKey studentId courseId r) }

/-- The `tutor.update` bumping `totalReviews` after a created review. -/
def applyTutorReviewsInc (db : DB) (tutorId : Nat) : DB :=
  { db with tutors := (updateWhere (tutorKey tutorId)
      (fun t => { t with totalReviews := t.totalReviews + 1 }) db.tutors) }

/-- The `tutor.update` decrementing `totalReviews` after a deleted review. -/
def applyTutorReviewsDec (db : DB) (tutorId : Nat) : DB :=
  { db with tutors := (updateWhere (tutorKey tutorId)
      (fun t => { t with totalReviews := t.totalReviews - 1 }) db.tutors) }

/-- `POST /api/reviews/:courseId`: create a review (always published,
verified when the enrollment is COMPLETED), then store the recomputed
average rating and published-review count on the course and bump the
tutor's review counter.  The writes are sequential, not transactional. -/
def createReview (db : DB) (user : AuthUser) (courseId : Nat) (body : ReviewBody) : Nat × DB :=
  if user.studentProfile.isNone then (403, db) else
  match db.courses.find? (courseKey courseId) with
  | none => (404, db)
  | some course =>
    match findEnrollment db user.id courseId with
    | none => (403, db)
    | some enr =>
      if (db.reviews.find? (reviewKey user.id courseId)).isSome then (400, db)
      else
        let db1 := addReview db user.id courseId body (decide (enr.status = EnrollStatus.COMPLETED))
        let db2 := writeCourseReviewStats db1 courseId
        match db2.tutors.find? (tutorKey course.tutorId) with
        | none => (500, db2)
        | some _ => (201, applyTutorReviewsInc db2 course.tutorId)

/-- `PUT /api/reviews/:courseId`: update the author's review; only when the
body carries a `rating` is the course's `averageRating` recomputed (its
`totalReviews` is not touched). -/
def updateReview (db : DB) (user : AuthUser) (courseId : Nat) (body : ReviewUpdateBody) : Nat × DB :=
  if user.studentProfile.isNone then (403, db) else
  match db.reviews.find? (reviewKey user.id courseId) with
  | none => (404, db)
  | some _ =>
    let db1 := applyReviewEdit db user.id courseId body
    if body.rating.isSome then
      match db1.courses.find? (courseKey courseId) with
      | none => (500, db1)
      | some _ => (200, writeCourseAvgOnly db1 courseId)
    else (200, db1)

/-- `DELETE /api/reviews/:courseId`: delete the author's review, store the
recomputed average rating and published-review count on the course, and
decrement the tutor's review counter.  The review row is fetched together
with its course (`include: { course: true }`), whose `tutorId` targets the
tutor update. -/
def deleteReview (db : DB) (user : AuthUser) (courseId : Nat) : Nat × DB :=
  if user.studentProfile.isNone then (403, db) else
  match db.reviews.find? (reviewKey user.id courseId) with
  | none => (404, db)
  | some _ =>
    match db.courses.find? (courseKey courseId) with
    | none => (500, db)
    | some course =>
      let db1 := removeReview db user.id courseId
      let db2 := writeCourseReviewStats db1 courseId
      match db2.tutors.find? (tutorKey course.tutorId) with
      | none => (500, db2)
      | some _ => (200, applyTutorReviewsDec db2 course.tutorId)

/-- The derived-field invariant on a course's review statistics: the stored
`averageRating` is the mean rating of the course's published reviews (0
when there are none) and the stored `totalReviews` is their count. -/
def reviewStatsOk (db : DB) (courseId : Nat) : Bool :=
  (db.courses.find? (courseKey courseId)).all fun c =>
    decide (c.averageRating = avgPublishedRating db courseId) &&
      decide (c.totalReviews = ((publishedReviewsOf db courseId).length : Int))

/-- A JSON scalar as it appears in a response body. -/
inductive JVal
  | jstr : String → JVal
  | jnum : Int → JVal
  | jbool : Bool → JVal
  | jnull : JVal
  | jlist : List String → JVal
deriving DecidableEq

/-- A `User` row as `GET /api/auth/me` reads it (scalar columns plus the
included role names and profile rows, the latter rendered by their ids). -/
structure User where
  id : Nat
  email : String
  username : String
  password : String
  firstName : String
  lastName : String
  isActive : Bool
  roleNames : List String
  studentProfile : Option Nat
  tutorProfile : Option Nat
  adminProfile : Option Nat
deriving DecidableEq

/-- Serialization of an optional included profile row. -/
def optProfileJson : Option Nat → JVal
  | some n => JVal.jnum n
  | none => JVal.jnull

/-- `const { password: _, ...userWithoutPassword } = user`: the response
object keeps every field of the row except `password`. -/
def userWithoutPassword (u : User) : List (String × JVal) :=
  [("id", JVal.jnum u.id), ("email", JVal.jstr u.email),
   ("username", JVal.jstr u.username), ("firstName", JVal.jstr u.firstName),
   ("lastName", JVal.jstr u.lastName), ("isActive", JVal.jbool u.isActive),
   ("roles", JVal.jlist u.roleNames),
   ("studentProfile", optProfileJson u.studentProfile),
   ("tutorProfile", optProfileJson u.tutorProfile),
   ("adminProfile", optProfileJson u.adminProfile)]

/-- `GET /api/auth/me`: look the authenticated user up by id and answer the
row without its password (`none` models the 404 branch). -/
def getMe (users : List User) (uid : Nat) : Option (List (String × JVal)) :=
  (users.find? fun u => decide (u.id = uid)).map userWithoutPassword

/-- Two user rows that agree on everything except, possibly, the password
of the user with id `uid`. -/
def userEqExceptPassword (uid : Nat) (u v : User) : Prop :=
  u.id = v.id ∧ u.email = v.email ∧ u.username = v.username ∧
    u.firstName = v.firstName ∧ u.lastName = v.lastName ∧ u.isActive = v.isActive ∧
    u.roleNames = v.roleNames ∧ u.studentProfile = v.studentProfile ∧
    u.tutorProfile = v.tutorProfile ∧ u.adminProfile = v.adminProfile ∧
    (u.id ≠ uid → u.password = v.password)

instance (uid : Nat) (u v : User) : Decidable (userEqExceptPassword uid u v) := by
  unfold userEqExceptPassword
  infer_instance

/-! ### Concrete fixtures used by witnesses and counterexamples -/

def tutorA : Tutor := { id := 7, totalStudents := 0, totalEarnings := 0, totalReviews := 0 }

def courseA : Course :=
  { id := 1, tutorId := 7, title := "Intro", price := 0, currency := "USD",
    isPublished := true, status := CourseState.PUBLISHED, totalEnrollments := 1,
    totalRevenue := 0, averageRating := 0, totalReviews := 0 }

def secA : CSection := { id := 1, courseId := 1, isActive := true }

def lessonA : Lesson := { id := 1, sectionId := 1, isActive := true }

def lessonInactiveB : Lesson := { id := 2, sectionId := 1, isActive := false }

def enrA : Enrollment :=
  { id := 10, studentId := 1, courseId := 1, status := EnrollStatus.ACTIVE,
    progress := 0, completedAt := none, lastAccessedAt := none }

def studentA : Student := { userId := 1, totalCoursesEnrolled := 1, totalCoursesCompleted := 0 }

def userA : AuthUser := { id := 1, studentProfile := some 100 }

def userNoProfile : AuthUser := { id := 1, studentProfile := none }

def baseDB : DB :=
  { courses := [courseA], sections := [secA], lessons := [lessonA],
    enrollments := [enrA], progressRecords := [], students := [studentA],
    tutors := [tutorA], certificates := [], payments := [], reviews := [] }

/-- A completed progress record of student 1 for the inactive lesson 2. -/
def progressRecB : ProgressRec :=
  { studentId := 1, lessonId := 2, enrollmentId := 10, timeSpent := 0,
    lastPosition := 0, isCompleted := true, completedAt := some 5 }

/-- `baseDB` plus an inactive lesson that student 1 has completed. -/
def mixedDB : DB :=
  { baseDB with lessons := [lessonA, lessonInactiveB], progressRecords := [progressRecB] }

/-- A completed progress record of student 1 for the (only) active lesson 1. -/
def progressRecA : ProgressRec :=
  { studentId := 1, lessonId := 1, enrollmentId := 10, timeSpent := 3,
    lastPosition := 0, isCompleted := true, completedAt := some 5 }

/-- `baseDB` where student 1 has already completed every active lesson. -/
def completeDB : DB := { baseDB with progressRecords := [progressRecA] }

def bodyTime : ProgressBody := { timeSpent := some 5, lastPosition := none, isCompleted := none }

def bodyCompleted : ProgressBody :=
  { timeSpent := none, lastPosition := none, isCompleted := some true }

/-! ### Generic list lemmas -/

theorem find?_map_of_pred_comm {α : Type} (g : α → α) (q : α → Bool) (l : List α)
    (h : ∀ x, q (g x) = q x) : (l.map g).find? q = (l.find? q).map g := by
  induction l with
  | nil => rfl
  | cons a t ih =>
    by_cases ha : q a = true
    · simp [List.find?_cons, h a, ha]
    · have ha2 : q a = false := by
        cases hqa : q a
        · rfl
        · exact absurd hqa ha
      simp [List.find?_cons, h a, ha2, ih]

theorem find?_updateWhere {α : Type} (p : α → Bool) (f : α → α) (q : α → Bool) (l : List α)
    (h : ∀ x, q (f x) = q x) :
    (updateWhere p f l).find? q = (l.find? q).map fun x => if p x then f x else x := by
  unfold updateWhere
  refine find?_map_of_pred_comm _ q l fun x => ?_
  by_cases hx : p x = true
  · simp [hx, h x]
  · simp [hx]

theorem countP_updateWhere {α : Type} (p : α → Bool) (f : α → α) (q : α → Bool) (l : List α)
    (h : ∀ x, q (f x) = q x) : (updateWhere p f l).countP q = l.countP q := by
  unfold updateWhere
  rw [List.countP_map]
  refine List.countP_congr fun x _ => ?_
  by_cases hx : p x = true
  · simp [Function.comp, hx, h x]
  · simp [Function.comp, hx]

theorem filter_updateWhere {α : Type} (p : α → Bool) (f : α → α) (q : α → Bool) (l : List α)
    (h : ∀ x, q (f x) = q x) :
    (updateWhere p f l).filter q = (l.filter q).map fun x => if p x then f x else x := by
  unfold updateWhere
  rw [List.filter_map]
  congr 1
  refine List.filter_congr fun x _ => ?_
  by_cases hx : p x = true
  · simp [Function.comp, hx, h x]
  · simp [Function.comp, hx]

/-! ### C4 -/

/-- C4: refuted by the code — a request with a truthy `isCompleted` makes the
handler read `progress?.completedAt` inside the initializer of the `const
progress` itself (a temporal-dead-zone `ReferenceError`), so the upsert's
argument object cannot be evaluated and no database write is reached: the
embedded handler yields 500 with the state untouched on a well-formed
request (existing enrollment, lesson in the course). -/
theorem updateProgress_isCompleted_throws :
    updateProgress baseDB userA 1 1 bodyCompleted 99 "CERT-1" none = (500, baseDB) := by
  decide

/-! ### C6 -/

/-- C6: each of the five enrollment routes (enroll, list, get, update
progress, unenroll) is gated by `auth`+`isStudent`: an authenticated user
without a student profile gets 403, the handler body never runs, and the
database state is unchanged. -/
theorem enrollment_routes_student_gate (db : DB) (user : AuthUser)
    (courseId lessonId newEnrollId : Nat) (body : ProgressBody) (now : Nat)
    (certNum : String) (fa fb : Option Nat) (statusFilter : Option EnrollStatus)
    (h : user.studentProfile = none) :
    enroll db user courseId newEnrollId = (403, db) ∧
    listEnrollments db user statusFilter = (403, db, []) ∧
    getEnrollment db user courseId = (403, db) ∧
    updateProgress db user courseId lessonId body now certNum fa = (403, db) ∧
    unenroll db user courseId fb = (403, db) := by
  simp [enroll, listEnrollments, getEnrollment, updateProgress, unenroll, h]

theorem enrollment_routes_student_gate_witness :
    AuthUser.studentProfile userNoProfile = none ∧
    enroll baseDB userNoProfile 1 5 = (403, baseDB) := by
  refine ⟨rfl, ?_⟩
  exact (enrollment_routes_student_gate baseDB userNoProfile 1 1 5 bodyTime 99 "C"
    none none none rfl).1

/-! ### C2 -/

/-- C2: refuted by the code — the progress route's writes run directly on
`req.prisma` with no `$transaction`: when the enrollment-update statement
fails, the response is an error yet the progress upsert has already changed
the database. -/
theorem progress_not_transactional_cex :
    (updateProgress baseDB userA 1 1 bodyTime 99 "CERT-1" (some 2)).1 = 500 ∧
    (updateProgress baseDB userA 1 1 bodyTime 99 "CERT-1" (some 2)).2 ≠ baseDB := by
  decide

/-- C2 amended: the progress route's writes are sequential statements, not a
transaction: if the enrollment-update statement (write 2) fails, the
response is 500 and the state keeps exactly the progress upsert's effect. -/
theorem progress_enrollment_write_failure_keeps_upsert
    (db : DB) (user : AuthUser) (courseId lessonId : Nat) (body : ProgressBody)
    (now : Nat) (certNum : String) (enr : Enrollment) (p : Nat)
    (hs : user.studentProfile = some p)
    (he : findEnrollment db user.id courseId = some enr)
    (hl : (findLessonInCourse db lessonId courseId).isSome = true)
    (hic : truthyOptBool body.isCompleted = false) :
    updateProgress db user courseId lessonId body now certNum (some 2) =
      (500, upsertProgress db user.id lessonId enr.id body) := by
  obtain ⟨l, hl2⟩ := Option.isSome_iff_exists.mp hl
  simp [updateProgress, hs, he, hl2, hic, runProgressWrites]

theorem progress_enrollment_write_failure_keeps_upsert_witness :
    AuthUser.studentProfile userA = some 100 ∧
    findEnrollment baseDB 1 1 = some enrA ∧
    (findLessonInCourse baseDB 1 1).isSome = true ∧
    truthyOptBool bodyTime.isCompleted = false ∧
    updateProgress baseDB userA 1 1 bodyTime 99 "C" (some 2) =
      (500, upsertProgress baseDB 1 1 10 bodyTime) := by
  refine ⟨rfl, by decide, by decide, rfl, ?_⟩
  exact progress_enrollment_write_failure_keeps_upsert baseDB userA 1 1 bodyTime 99 "C"
    enrA 100 rfl (by decide) (by decide) rfl

/-! ### C10 -/

/-- C10: the `GET /api/auth/me` response never carries a `password` key, and
the endpoint is noninterferent with respect to the stored password hash:
two user tables that agree except on the authenticated user's password
produce identical responses. -/
theorem getMe_no_password_and_noninterference :
    (∀ (users : List User) (uid : Nat) (resp : List (String × JVal)),
        getMe users uid = some resp → resp.lookup "password" = none) ∧
    (∀ (uid : Nat) (users1 users2 : List User),
        List.Forall₂ (userEqExceptPassword uid) users1 users2 →
        getMe users1 uid = getMe users2 uid) := by
  constructor
  · intro users uid resp h
    unfold getMe at h
    obtain ⟨u, _, hu2⟩ := Option.map_eq_some'.mp h
    subst hu2
    rfl
  · intro uid users1 users2 h
    induction h with
    | nil => rfl
    | @cons a b l1 l2 hab _ ih =>
      unfold getMe at ih ⊢
      have hid : a.id = b.id := hab.1
      cases hb : decide (b.id = uid) with
      | true =>
        have ha : decide (a.id = uid) = true := by rw [hid]; exact hb
        simp only [List.find?_cons, ha, hb, Option.map_some']
        obtain ⟨_, h2, h3, h4, h5, h6, h7, h8, h9, h10, _⟩ := hab
        simp [userWithoutPassword, hid, h2, h3, h4, h5, h6, h7, h8, h9, h10]
      | false =>
        have ha : decide (a.id = uid) = false := by rw [hid]; exact hb
        simp only [List.find?_cons, ha, hb]
        exact ih

def userRowA : User :=
  { id := 1, email := "a@x.io", username := "ada", password := "hash1",
    firstName := "Ada", lastName := "L", isActive := true,
    roleNames := ["STUDENT"], studentProfile := some 100,
    tutorProfile := none, adminProfile := none }

def userRowB : User := { userRowA with password := "hash2" }

theorem getMe_no_password_and_noninterference_witness :
    getMe [userRowA] 1 = getMe [userRowB] 1 ∧
    (userWithoutPassword userRowA).lookup "password" = none := by
  constructor
  · exact getMe_no_password_and_noninterference.2 1 [userRowA] [userRowB]
      (List.Forall₂.cons
        ⟨rfl, rfl, rfl, rfl, rfl, rfl, rfl, rfl, rfl, rfl, fun hne => absurd rfl hne⟩
        List.Forall₂.nil)
  · exact getMe_no_password_and_noninterference.1 [userRowA] 1
      (userWithoutPassword userRowA) rfl

/-! ### C7 -/

/-- C7: the enroll route's outcomes: 404 (unchanged) when the course is
missing or unpublished, 400 (unchanged) when already enrolled, enrollment
creation plus the three counter increments with 201 for a free course, and
402 (unchanged) for a priced course. -/
theorem enroll_route_cases (db : DB) (user : AuthUser) (courseId newEnrollId p : Nat)
    (hs : user.studentProfile = some p) :
    (findPublishedCourse db courseId = none →
      enroll db user courseId newEnrollId = (404, db)) ∧
    (∀ course, findPublishedCourse db courseId = some course →
      (findEnrollment db user.id courseId).isSome = true →
      enroll db user courseId newEnrollId = (400, db)) ∧
    (∀ course t0 s0, findPublishedCourse db courseId = some course →
      findEnrollment db user.id courseId = none →
      course.price = 0 →
      db.tutors.find? (tutorKey course.tutorId) = some t0 →
      db.students.find? (studentKey user.id) = some s0 →
      enroll db user courseId newEnrollId =
        (201, enrollEffects db user.id courseId course.tutorId newEnrollId)) ∧
    (∀ course, findPublishedCourse db courseId = some course →
      findEnrollment db user.id courseId = none →
      0 < course.price →
      enroll db user courseId newEnrollId = (402, db)) := by
  refine ⟨?_, ?_, ?_, ?_⟩
  · intro hc
    simp [enroll, hs, hc]
  · intro course hc he
    simp [enroll, hs, hc, he]
  · intro course t0 s0 hc he hp ht hstu
    simp [enroll, hs, hc, he, hp, ht, hstu, enrollEffects]
  · intro course hc he hp
    have hep : course.price ≠ 0 := ne_of_gt hp
    simp [enroll, hs, hc, he, hep]

def paidCourse : Course :=
  { id := 2, tutorId := 7, title := "Paid", price := 49, currency := "USD",
    isPublished := true, status := CourseState.PUBLISHED, totalEnrollments := 0,
    totalRevenue := 0, averageRating := 0, totalReviews := 0 }

/-- `baseDB` plus a paid course and no enrollment of student 1 in it, plus a
free course 3 student 1 is not enrolled in. -/
def freeCourse : Course :=
  { id := 3, tutorId := 7, title := "Free", price := 0, currency := "USD",
    isPublished := true, status := CourseState.PUBLISHED, totalEnrollments := 0,
    totalRevenue := 0, averageRating := 0, totalReviews := 0 }

def shopDB : DB := { baseDB with courses := [courseA, paidCourse, freeCourse] }

theorem enroll_route_cases_witness :
    AuthUser.studentProfile userA = some 100 ∧
    findPublishedCourse shopDB 3 = some freeCourse ∧
    findEnrollment shopDB 1 3 = none ∧
    Course.price freeCourse = 0 ∧
    (DB.tutors shopDB).find? (tutorKey 7) = some tutorA ∧
    (DB.students shopDB).find? (studentKey 1) = some studentA ∧
    enroll shopDB userA 3 77 = (201, enrollEffects shopDB 1 3 7 77) := by
  refine ⟨rfl, by decide, by decide, by decide, by decide, by decide, ?_⟩
  exact (enroll_route_cases shopDB userA 3 77 100 rfl).2.2.1 freeCourse tutorA studentA
    (by decide) (by decide) (by decide) (by decide) (by decide)

/-! ### C9 -/

/-- C9: a COMPLETED enrollment is never deleted (400, state unchanged), and
when unenrollment proceeds it runs as one transaction: any failing
statement leaves the state unchanged (500), while success deletes the
progress records and the enrollment and decrements the two counters, all
together (200). -/
theorem unenroll_guard_and_transaction (db : DB) (user : AuthUser) (courseId p : Nat)
    (enr : Enrollment)
    (hs : user.studentProfile = some p)
    (he : findEnrollment db user.id courseId = some enr) :
    (∀ fa, enr.status = EnrollStatus.COMPLETED → unenroll db user courseId fa = (400, db)) ∧
    (∀ k, enr.status ≠ EnrollStatus.COMPLETED → 1 ≤ k → k ≤ 4 →
      unenroll db user courseId (some k) = (500, db)) ∧
    (∀ c0 s0, enr.status ≠ EnrollStatus.COMPLETED →
      db.courses.find? (courseKey courseId) = some c0 →
      db.students.find? (studentKey user.id) = some s0 →
      unenroll db user courseId none = (200, unenrollEffects db enr user.id courseId)) := by
  refine ⟨?_, ?_, ?_⟩
  · intro fa hcomp
    simp [unenroll, hs, he, hcomp]
  · intro k hcomp h1 h4
    interval_cases k
    · simp [unenroll, hs, he, hcomp, txUnenroll]
    · simp [unenroll, hs, he, hcomp, txUnenroll]
    · simp [unenroll, hs, he, hcomp, txUnenroll]
    · cases hfind : db.courses.find? (courseKey courseId) with
      | none => simp [unenroll, hs, he, hcomp, txUnenroll, hfind]
      | some c => simp [unenroll, hs, he, hcomp, txUnenroll, hfind]
  · intro c0 s0 hcomp hc hstu
    simp [unenroll, hs, he, hcomp, txUnenroll, hc, hstu, unenrollEffects]

theorem unenroll_guard_and_transaction_witness :
    AuthUser.studentProfile userA = some 100 ∧
    findEnrollment baseDB 1 1 = some enrA ∧
    Enrollment.status enrA ≠ EnrollStatus.COMPLETED ∧
    unenroll baseDB userA 1 (some 2) = (500, baseDB) ∧
    unenroll baseDB userA 1 none = (200, unenrollEffects baseDB enrA 1 1) := by
  refine ⟨rfl, by decide, by decide, ?_, ?_⟩
  · exact (unenroll_guard_and_transaction baseDB userA 1 100 enrA rfl (by decide)).2.1 2
      (by decide) (by decide) (by decide)
  · exact (unenroll_guard_and_transaction baseDB userA 1 100 enrA rfl (by decide)).2.2
      courseA studentA (by decide) (by decide) (by decide)

/-! ### C5 -/

theorem txPaymentSuccess_injected_failure (db : DB) (intent : PaymentIntent)
    (now newEnrollId k : Nat) (h1 : 1 ≤ k) (h5 : k ≤ 5) :
    txPaymentSuccess db intent now newEnrollId (some k) = none := by
  interval_cases k <;>
    · simp only [txPaymentSuccess]
      repeat' split
      all_goals simp_all

/-- C5: the `payment_intent.succeeded` handler is transactional and performs
exactly the five writes: any failing statement leaves the database
unchanged, and when every statement succeeds the result is precisely the
composite effect (payment completed with `paidAt`, ACTIVE enrollment
created, course/tutor/student counters and revenue/earnings updated, the
tutor earning 85% of the paid amount). -/
theorem payment_success_transactional (db : DB) (intent : PaymentIntent)
    (now newEnrollId : Nat) :
    (∀ k, 1 ≤ k → k ≤ 5 →
      handlePaymentSuccess db intent now newEnrollId (some k) = db) ∧
    (∀ pay c0 t0 s0,
      db.payments.find? (paymentKey intent.id) = some pay →
      db.enrollments.find? (enrollKey intent.metadata.studentId intent.metadata.courseId) = none →
      db.courses.find? (courseKey intent.metadata.courseId) = some c0 →
      db.tutors.find? (tutorKey intent.metadata.tutorId) = some t0 →
      db.students.find? (studentKey intent.metadata.studentId) = some s0 →
      handlePaymentSuccess db intent now newEnrollId none =
        paymentSuccessEffects db intent now newEnrollId) := by
  constructor
  · intro k h1 h5
    rw [handlePaymentSuccess, txPaymentSuccess_injected_failure db intent now newEnrollId k h1 h5]
    rfl
  · intro pay c0 t0 s0 hp he2 hc ht hstu
    simp [handlePaymentSuccess, txPaymentSuccess, findEnrollment, hp, he2, hc, ht, hstu,
      paymentSuccessEffects]

def pendingPayment : Payment :=
  { id := 50, userId := 1, courseId := 2, amount := 49, status := PayStatus.PENDING,
    stripePaymentId := "pi_1", paidAt := none }

def payDB : DB := { shopDB with payments := [pendingPayment] }

def intentA : PaymentIntent :=
  { id := "pi_1", amount := 4900, metadata := { courseId := 2, studentId := 1, tutorId := 7 } }

theorem payment_success_transactional_witness :
    (DB.payments payDB).find? (paymentKey "pi_1") = some pendingPayment ∧
    (DB.enrollments payDB).find? (enrollKey 1 2) = none ∧
    handlePaymentSuccess payDB intentA 123 88 (some 3) = payDB ∧
    handlePaymentSuccess payDB intentA 123 88 none =
      paymentSuccessEffects payDB intentA 123 88 := by
  refine ⟨by decide, by decide, ?_, ?_⟩
  · exact (payment_success_transactional payDB intentA 123 88).1 3 (by decide) (by decide)
  · exact (payment_success_transactional payDB intentA 123 88).2 pendingPayment paidCourse
      tutorA studentA (by decide) (by decide) (by decide) (by decide) (by decide)

/-! ### Support lemmas for the progress route -/

theorem find?_updateWhere_self {α : Type} (q : α → Bool) (f : α → α) (l : List α)
    (h : ∀ x, q (f x) = q x) :
    (updateWhere q f l).find? q = (l.find? q).map f := by
  rw [find?_updateWhere q f q l h]
  cases hf : l.find? q with
  | none => rfl
  | some x =>
    have hx : q x = true := List.find?_some hf
    simp [hx]

theorem findEnrollment_upsertProgress (db : DB) (s l e : Nat) (b : ProgressBody) (s2 c : Nat) :
    findEnrollment (upsertProgress db s l e b) s2 c = findEnrollment db s2 c := by
  unfold findEnrollment upsertProgress
  split <;> rfl

/-- The enrollment-progress update targets the row it rewrites: the lookup
after the write returns the updated row. -/
theorem findEnrollment_writeEnrollmentProgress (db : DB) (s c : Nat) (pct : ℚ)
    (st : EnrollStatus) (now : Nat) :
    findEnrollment (writeEnrollmentProgress db s c pct st now) s c =
      (findEnrollment db s c).map (fun e =>
        if decide (pct = 100) && decide (st ≠ EnrollStatus.COMPLETED) then
          { e with progress := pct, lastAccessedAt := some now,
                   status := EnrollStatus.COMPLETED, completedAt := some now }
        else { e with progress := pct, lastAccessedAt := some now }) := by
  unfold findEnrollment writeEnrollmentProgress
  refine find?_updateWhere_self (enrollKey s c) _ db.enrollments fun e => ?_
  unfold enrollKey
  cases hC : decide (pct = 100) && decide (st ≠ EnrollStatus.COMPLETED) <;> simp [hC]

theorem courseProgressOf_writeEnrollmentProgress (db : DB) (s c : Nat) (pct : ℚ)
    (st : EnrollStatus) (now s2 c2 : Nat) :
    courseProgressOf (writeEnrollmentProgress db s c pct st now) s2 c2 =
      courseProgressOf db s2 c2 := rfl

theorem courseProgressOf_update_students (db : DB) (X : List Student) (s c : Nat) :
    courseProgressOf { db with students := X } s c = courseProgressOf db s c := rfl

theorem courseProgressOf_update_certificates (db : DB) (X : List Certificate) (s c : Nat) :
    courseProgressOf { db with certificates := X } s c = courseProgressOf db s c := rfl

theorem findEnrollment_update_students (db : DB) (X : List Student) (s c : Nat) :
    findEnrollment { db with students := X } s c = findEnrollment db s c := rfl

theorem findEnrollment_update_certificates (db : DB) (X : List Certificate) (s c : Nat) :
    findEnrollment { db with certificates := X } s c = findEnrollment db s c := rfl

/-! ### C1 -/

/-- Whether the student has a completed progress record for lesson `l`
(the natural reading of "the student's completed lessons"). -/
def claimLessonDone (db : DB) (studentId : Nat) (l : Lesson) : Bool :=
  db.progressRecords.any fun pr =>
    decide (pr.studentId = studentId) && decide (pr.lessonId = l.id) && pr.isCompleted

/-- Modelled from the claim's words, reading "the course's lessons" as all
of them: the denominator count. -/
def claimTotalAll (db : DB) (courseId : Nat) : Nat :=
  db.lessons.countP fun l =>
    db.sections.any fun s => decide (s.id = l.sectionId) && decide (s.courseId = courseId)

/-- The numerator count over the same set of lessons. -/
def claimDoneAll (db : DB) (studentId courseId : Nat) : Nat :=
  db.lessons.countP fun l =>
    (db.sections.any fun s => decide (s.id = l.sectionId) && decide (s.courseId = courseId)) &&
      claimLessonDone db studentId l

/-- Modelled from the claim's words, for comparison with the code: a
percentage whose two counts range over one common set — all of the
course's lessons — with 0 when the set is empty. -/
def claimPctAllLessons (db : DB) (studentId courseId : Nat) : ℚ :=
  if claimTotalAll db courseId = 0 then 0
  else (claimDoneAll db studentId courseId : ℚ) / (claimTotalAll db courseId : ℚ) * 100

/-- Denominator over the second reading of "the course's lessons": the
active lessons of active sections. -/
def claimTotalActive (db : DB) (courseId : Nat) : Nat :=
  db.lessons.countP fun l =>
    l.isActive && db.sections.any fun s =>
      decide (s.id = l.sectionId) && decide (s.courseId = courseId) && s.isActive

/-- The numerator count over that same set of lessons. -/
def claimDoneActive (db : DB) (studentId courseId : Nat) : Nat :=
  db.lessons.countP fun l =>
    (l.isActive && db.sections.any fun s =>
      decide (s.id = l.sectionId) && decide (s.courseId = courseId) && s.isActive) &&
      claimLessonDone db studentId l

/-- Modelled from the claim's words, second reading: both counts range over
the course's active lessons in active sections. -/
def claimPctActiveLessons (db : DB) (studentId courseId : Nat) : ℚ :=
  if claimTotalActive db courseId = 0 then 0
  else (claimDoneActive db studentId courseId : ℚ) / (claimTotalActive db courseId : ℚ) * 100

/-- The state `mixedDB` reaches after the lesson-1 progress update: the new
progress record appended, the enrollment at 100 and COMPLETED, the student
counter bumped and a certificate minted. -/
def cexFinalDB : DB :=
  { mixedDB with
      progressRecords := [progressRecB,
        { studentId := 1, lessonId := 1, enrollmentId := 10, timeSpent := 5,
          lastPosition := 0, isCompleted := false, completedAt := none }],
      enrollments :=
        [({ id := 10, studentId := 1, courseId := 1,
            status := EnrollStatus.COMPLETED, progress := 100,
            completedAt := some 99, lastAccessedAt := some 99 } : Enrollment)],
      students :=
        [({ userId := 1, totalCoursesEnrolled := 1,
            totalCoursesCompleted := 1 } : Student)],
      certificates :=
        [{ studentId := 1, courseId := 1, enrollmentId := 10,
           certificateNumber := "CERT-1" }] }

/-- C1: refuted by the code — the `totalLessons` count filters by
`isActive` on lesson and section while the `completedLessons` count does
not, so the two counts do not range over the same set: with one active and
one inactive lesson, the inactive one completed, the stored progress is
100, yet counting both sides over all lessons gives 50 and over active
lessons gives 0. -/
theorem progress_pct_counts_differ_cex :
    (updateProgress mixedDB userA 1 1 bodyTime 99 "CERT-1" none).1 = 200 ∧
    (findEnrollment (updateProgress mixedDB userA 1 1 bodyTime 99 "CERT-1" none).2 1 1).map
        Enrollment.progress = some 100 ∧
    claimPctAllLessons (updateProgress mixedDB userA 1 1 bodyTime 99 "CERT-1" none).2 1 1 = 50 ∧
    claimPctActiveLessons (updateProgress mixedDB userA 1 1 bodyTime 99 "CERT-1" none).2 1 1
      = 0 := by
  have hpct : courseProgressOf (upsertProgress mixedDB 1 1 10 bodyTime) 1 1 = 100 := by
    have h1 : countTotalLessons (upsertProgress mixedDB 1 1 10 bodyTime) 1 = 1 := by decide
    have h2 : countCompletedLessons (upsertProgress mixedDB 1 1 10 bodyTime) 1 1 = 1 := by
      decide
    unfold courseProgressOf
    rw [h1, h2]
    norm_num
  have hfe : findEnrollment mixedDB 1 1 = some enrA := by decide
  have hfl : findLessonInCourse mixedDB 1 1 = some lessonA := by decide
  have heval : updateProgress mixedDB userA 1 1 bodyTime 99 "CERT-1" none =
      (200, cexFinalDB) := by
    simp only [updateProgress, userA, hfe, hfl, runProgressWrites, enrA]
    simp only [hpct]
    decide
  rw [heval]
  refine ⟨rfl, by decide, ?_, ?_⟩
  · have a1 : claimTotalAll cexFinalDB 1 = 2 := by decide
    have a2 : claimDoneAll cexFinalDB 1 1 = 1 := by decide
    unfold claimPctAllLessons
    rw [a1, a2]
    norm_num
  · have a1 : claimTotalActive cexFinalDB 1 = 1 := by decide
    have a2 : claimDoneActive cexFinalDB 1 1 = 0 := by decide
    unfold claimPctActiveLessons
    rw [a1, a2]
    norm_num

theorem findEnrollment_applyStudentCompletedInc (db : DB) (s u c : Nat) :
    findEnrollment (applyStudentCompletedInc db s) u c = findEnrollment db u c := rfl

theorem findEnrollment_applyAddCertificate (db : DB) (s c e : Nat) (n : String) (u c2 : Nat) :
    findEnrollment (applyAddCertificate db s c e n) u c2 = findEnrollment db u c2 := rfl

theorem courseProgressOf_applyStudentCompletedInc (db : DB) (s u c : Nat) :
    courseProgressOf (applyStudentCompletedInc db s) u c = courseProgressOf db u c := rfl

theorem courseProgressOf_applyAddCertificate (db : DB) (s c e : Nat) (n : String) (u c2 : Nat) :
    courseProgressOf (applyAddCertificate db s c e n) u c2 = courseProgressOf db u c2 := rfl

theorem students_upsertProgress (db : DB) (s l e : Nat) (b : ProgressBody) :
    (upsertProgress db s l e b).students = db.students := by
  unfold upsertProgress
  split <;> rfl

theorem certificates_upsertProgress (db : DB) (s l e : Nat) (b : ProgressBody) :
    (upsertProgress db s l e b).certificates = db.certificates := by
  unfold upsertProgress
  split <;> rfl

theorem students_writeEnrollmentProgress (db : DB) (s c : Nat) (pct : ℚ)
    (st : EnrollStatus) (now : Nat) :
    (writeEnrollmentProgress db s c pct st now).students = db.students := rfl

theorem certificates_writeEnrollmentProgress (db : DB) (s c : Nat) (pct : ℚ)
    (st : EnrollStatus) (now : Nat) :
    (writeEnrollmentProgress db s c pct st now).certificates = db.certificates := rfl

theorem students_applyStudentCompletedInc (db : DB) (s : Nat) :
    (applyStudentCompletedInc db s).students =
      updateWhere (studentKey s)
        (fun x => { x with totalCoursesCompleted := x.totalCoursesCompleted + 1 })
        db.students := rfl

theorem students_applyAddCertificate (db : DB) (s c e : Nat) (n : String) :
    (applyAddCertificate db s c e n).students = db.students := rfl

theorem certificates_applyStudentCompletedInc (db : DB) (s : Nat) :
    (applyStudentCompletedInc db s).certificates = db.certificates := rfl

theorem certificates_applyAddCertificate (db : DB) (s c e : Nat) (n : String) :
    (applyAddCertificate db s c e n).certificates =
      db.certificates ++
        [{ studentId := s, courseId := c, enrollmentId := e, certificateNumber := n }] := rfl

/-- C1 amended: for every progress update that reaches the writes (existing
enrollment, lesson in the course, falsy `isCompleted` — a truthy one throws
before any write — and no write failure), the enrollment's stored progress
is recomputed as 100 · completed/total, where the total counts the course's
active lessons in active sections while the completed count ranges over the
student's completed progress records for all of the course's lessons
(`courseProgressOf`), and is 0 when there are no active lessons; the two
counts do not range over the same set. -/
theorem progress_recompute_amended (db : DB) (user : AuthUser) (courseId lessonId : Nat)
    (body : ProgressBody) (now : Nat) (certNum : String) (enr : Enrollment) (p : Nat)
    (hs : user.studentProfile = some p)
    (he : findEnrollment db user.id courseId = some enr)
    (hl : (findLessonInCourse db lessonId courseId).isSome = true)
    (hic : truthyOptBool body.isCompleted = false) :
    (findEnrollment (updateProgress db user courseId lessonId body now certNum none).2
        user.id courseId).map Enrollment.progress =
      some (courseProgressOf (updateProgress db user courseId lessonId body now certNum none).2
        user.id courseId) := by
  obtain ⟨l0, hl2⟩ := Option.isSome_iff_exists.mp hl
  have hno : ∀ m : Nat, ((none : Option Nat) = some m) = False := fun m => by simp
  simp only [updateProgress, hs, Option.isNone_some, Bool.false_eq_true, if_false, he, hl2, hic,
    runProgressWrites, hno]
  split
  · rename_i hcond
    rw [Bool.and_eq_true, decide_eq_true_eq, decide_eq_true_eq] at hcond
    split
    · rw [findEnrollment_writeEnrollmentProgress, findEnrollment_upsertProgress, he,
        courseProgressOf_writeEnrollmentProgress]
      simp [hcond.1, hcond.2]
    · rw [findEnrollment_applyAddCertificate, findEnrollment_applyStudentCompletedInc,
        findEnrollment_writeEnrollmentProgress, findEnrollment_upsertProgress, he,
        courseProgressOf_applyAddCertificate, courseProgressOf_applyStudentCompletedInc,
        courseProgressOf_writeEnrollmentProgress]
      simp [hcond.1, hcond.2]
  · rename_i hcond
    rw [Bool.and_eq_true, decide_eq_true_eq, decide_eq_true_eq] at hcond
    rw [findEnrollment_writeEnrollmentProgress, findEnrollment_upsertProgress, he,
      courseProgressOf_writeEnrollmentProgress]
    simp [hcond]


/-- C3: when the recomputed progress is exactly 100 and the enrollment was
not COMPLETED, the progress route flips the status to COMPLETED, stamps
`completedAt`, bumps the student's `totalCoursesCompleted` by one and mints
exactly one certificate; when the recomputed progress is below 100 or the
status already was COMPLETED, none of the four effects happens. -/
theorem progress_completion_effects (db : DB) (user : AuthUser) (courseId lessonId : Nat)
    (body : ProgressBody) (now : Nat) (certNum : String) (enr : Enrollment) (p : Nat)
    (s0 : Student)
    (hs : user.studentProfile = some p)
    (he : findEnrollment db user.id courseId = some enr)
    (hl : (findLessonInCourse db lessonId courseId).isSome = true)
    (hic : truthyOptBool body.isCompleted = false)
    (hstu : db.students.find? (studentKey user.id) = some s0) :
    ((courseProgressOf (upsertProgress db user.id lessonId enr.id body) user.id courseId = 100 ∧
        enr.status ≠ EnrollStatus.COMPLETED) →
      (updateProgress db user courseId lessonId body now certNum none).1 = 200 ∧
      (findEnrollment (updateProgress db user courseId lessonId body now certNum none).2
          user.id courseId).map (fun e => (e.status, e.completedAt)) =
        some (EnrollStatus.COMPLETED, some now) ∧
      (updateProgress db user courseId lessonId body now certNum none).2.students =
        updateWhere (studentKey user.id)
          (fun s => { s with totalCoursesCompleted := s.totalCoursesCompleted + 1 })
          db.students ∧
      (updateProgress db user courseId lessonId body now certNum none).2.certificates =
        db.certificates ++
          [{ studentId := user.id, courseId := courseId, enrollmentId := enr.id,
             certificateNumber := certNum }]) ∧
    ((courseProgressOf (upsertProgress db user.id lessonId enr.id body) user.id courseId < 100 ∨
        enr.status = EnrollStatus.COMPLETED) →
      (findEnrollment (updateProgress db user courseId lessonId body now certNum none).2
          user.id courseId).map (fun e => (e.status, e.completedAt)) =
        some (enr.status, enr.completedAt) ∧
      (updateProgress db user courseId lessonId body now certNum none).2.students =
        db.students ∧
      (updateProgress db user courseId lessonId body now certNum none).2.certificates =
        db.certificates) := by
  obtain ⟨l0, hl2⟩ := Option.isSome_iff_exists.mp hl
  have hno : ∀ m : Nat, ((none : Option Nat) = some m) = False := fun m => by simp
  constructor
  · rintro ⟨hpct, hst⟩
    have hcond : (decide (courseProgressOf (upsertProgress db user.id lessonId enr.id body)
        user.id courseId = 100) && decide (enr.status ≠ EnrollStatus.COMPLETED)) = true := by
      rw [Bool.and_eq_true, decide_eq_true_eq, decide_eq_true_eq]
      exact ⟨hpct, hst⟩
    have hstu2 : (writeEnrollmentProgress (upsertProgress db user.id lessonId enr.id body)
        user.id courseId
        (courseProgressOf (upsertProgress db user.id lessonId enr.id body) user.id courseId)
        enr.status now).students.find? (studentKey user.id) = some s0 := by
      rw [students_writeEnrollmentProgress, students_upsertProgress]
      exact hstu
    simp only [updateProgress, hs, Option.isNone_some, Bool.false_eq_true, if_false, he, hl2,
      hic, runProgressWrites, hno, hcond, if_true, hstu2]
    refine ⟨trivial, ?_, ?_, ?_⟩
    · rw [findEnrollment_applyAddCertificate, findEnrollment_applyStudentCompletedInc,
        findEnrollment_writeEnrollmentProgress, findEnrollment_upsertProgress, he]
      simp only [Option.map_some']
      rw [if_pos hcond]
    · rw [students_applyAddCertificate, students_applyStudentCompletedInc,
        students_writeEnrollmentProgress, students_upsertProgress]
    · rw [certificates_applyAddCertificate, certificates_applyStudentCompletedInc,
        certificates_writeEnrollmentProgress, certificates_upsertProgress]
  · intro hlow
    have hcond : (decide (courseProgressOf (upsertProgress db user.id lessonId enr.id body)
        user.id courseId = 100) && decide (enr.status ≠ EnrollStatus.COMPLETED)) = false := by
      rcases hlow with h | h
      · have h2 : ¬(courseProgressOf (upsertProgress db user.id lessonId enr.id body)
            user.id courseId = 100) := ne_of_lt h
        simp [h2]
      · simp [h]
    simp only [updateProgress, hs, Option.isNone_some, Bool.false_eq_true, if_false, he, hl2,
      hic, runProgressWrites, hno, hcond]
    refine ⟨?_, ?_, ?_⟩
    · rw [findEnrollment_writeEnrollmentProgress, findEnrollment_upsertProgress, he]
      simp only [Option.map_some']
      simp only [hcond, Bool.false_eq_true, if_false]
    · rw [students_writeEnrollmentProgress, students_upsertProgress]
    · rw [certificates_writeEnrollmentProgress, certificates_upsertProgress]

theorem progress_recompute_amended_witness :
    AuthUser.studentProfile userA = some 100 ∧
    findEnrollment baseDB 1 1 = some enrA ∧
    (findLessonInCourse baseDB 1 1).isSome = true ∧
    truthyOptBool bodyTime.isCompleted = false ∧
    (findEnrollment (updateProgress baseDB userA 1 1 bodyTime 99 "C" none).2 1 1).map
        Enrollment.progress =
      some (courseProgressOf (updateProgress baseDB userA 1 1 bodyTime 99 "C" none).2 1 1) := by
  refine ⟨rfl, by decide, by decide, rfl, ?_⟩
  exact progress_recompute_amended baseDB userA 1 1 bodyTime 99 "C" enrA 100 rfl (by decide)
    (by decide) rfl

theorem progress_completion_effects_witness :
    AuthUser.studentProfile userA = some 100 ∧
    findEnrollment completeDB 1 1 = some enrA ∧
    (findLessonInCourse completeDB 1 1).isSome = true ∧
    truthyOptBool bodyTime.isCompleted = false ∧
    (DB.students completeDB).find? (studentKey 1) = some studentA ∧
    courseProgressOf (upsertProgress completeDB 1 1 10 bodyTime) 1 1 = 100 ∧
    Enrollment.status enrA ≠ EnrollStatus.COMPLETED ∧
    (updateProgress completeDB userA 1 1 bodyTime 99 "CERT-9" none).1 = 200 := by
  have h1 : countTotalLessons (upsertProgress completeDB 1 1 10 bodyTime) 1 = 1 := by decide
  have h2 : countCompletedLessons (upsertProgress completeDB 1 1 10 bodyTime) 1 1 = 1 := by
    decide
  have hpct : courseProgressOf (upsertProgress completeDB 1 1 10 bodyTime) 1 1 = 100 := by
    unfold courseProgressOf
    rw [h1, h2]
    simp
  refine ⟨rfl, by decide, by decide, rfl, by decide, hpct, by decide, ?_⟩
  exact ((progress_completion_effects completeDB userA 1 1 bodyTime 99 "CERT-9" enrA 100
    studentA rfl (by decide) (by decide) rfl (by decide)).1 ⟨hpct, by decide⟩).1

theorem reviewStatsOk_applyTutorReviewsInc (db : DB) (t c : Nat) :
    reviewStatsOk (applyTutorReviewsInc db t) c = reviewStatsOk db c := rfl

theorem reviewStatsOk_applyTutorReviewsDec (db : DB) (t c : Nat) :
    reviewStatsOk (applyTutorReviewsDec db t) c = reviewStatsOk db c := rfl

theorem courses_addReview (db : DB) (u c : Nat) (b : ReviewBody) (v : Bool) :
    (addReview db u c b v).courses = db.courses := rfl

theorem courses_removeReview (db : DB) (u c : Nat) :
    (removeReview db u c).courses = db.courses := rfl

theorem courses_applyReviewEdit (db : DB) (u c : Nat) (b : ReviewUpdateBody) :
    (applyReviewEdit db u c b).courses = db.courses := rfl

/-- The create/delete recomputation establishes the review-stats invariant
for the course outright. -/
theorem reviewStatsOk_writeCourseReviewStats (db : DB) (c : Nat) :
    reviewStatsOk (writeCourseReviewStats db c) c = true := by
  simp only [reviewStatsOk, writeCourseReviewStats]
  rw [find?_updateWhere_self (courseKey c)
    (fun c2 =>
      { c2 with averageRating := avgPublishedRating db c,
                totalReviews := ((publishedReviewsOf db c).length : Int) })
    db.courses (fun x => rfl)]
  cases hf : db.courses.find? (courseKey c) with
  | none => rfl
  | some course =>
    simp only [Option.map_some', Option.all_some, Bool.and_eq_true, decide_eq_true_eq,
      Nat.cast_inj]
    exact ⟨rfl, rfl⟩

theorem publishedCount_applyReviewEdit (db : DB) (u c : Nat) (b : ReviewUpdateBody) (c2 : Nat) :
    (publishedReviewsOf (applyReviewEdit db u c b) c2).length =
      (publishedReviewsOf db c2).length := by
  simp only [publishedReviewsOf, applyReviewEdit]
  rw [filter_updateWhere (reviewKey u c) (applyReviewUpdate b)
    (fun r => decide (r.courseId = c2) && r.isPublished) db.reviews (fun x => rfl),
    List.length_map]

theorem avgPublishedRating_applyReviewEdit_noRating (db : DB) (u c : Nat)
    (b : ReviewUpdateBody) (hb : b.rating = none) (c2 : Nat) :
    avgPublishedRating (applyReviewEdit db u c b) c2 = avgPublishedRating db c2 := by
  simp only [avgPublishedRating, publishedReviewsOf, applyReviewEdit]
  rw [filter_updateWhere (reviewKey u c) (applyReviewUpdate b)
    (fun r => decide (r.courseId = c2) && r.isPublished) db.reviews (fun x => rfl),
    List.length_map, List.map_map]
  have hco : ((fun r => (r.rating : ℚ)) ∘
      (fun x => if reviewKey u c x = true then applyReviewUpdate b x else x)) =
        fun r => (r.rating : ℚ) := by
    funext x
    by_cases hx : reviewKey u c x = true <;> simp [Function.comp, hx, applyReviewUpdate, hb]
  rw [hco]

/-- C8: each review operation preserves the derived-field invariant that the
course's stored `averageRating` is the mean rating of its published reviews
(0 when none) and its stored `totalReviews` their count: create and delete
recompute and store both, and update — which recomputes only the average,
and only when a rating is supplied — keeps the invariant given it held
before. -/
theorem review_ops_preserve_stats (db : DB) (user : AuthUser) (p : Nat)
    (hs : user.studentProfile = some p) :
    (∀ courseId body course enr t0,
      db.courses.find? (courseKey courseId) = some course →
      findEnrollment db user.id courseId = some enr →
      db.reviews.find? (reviewKey user.id courseId) = none →
      db.tutors.find? (tutorKey course.tutorId) = some t0 →
      reviewStatsOk (createReview db user courseId body).2 courseId = true) ∧
    (∀ courseId body rv,
      reviewStatsOk db courseId = true →
      db.reviews.find? (reviewKey user.id courseId) = some rv →
      reviewStatsOk (updateReview db user courseId body).2 courseId = true) ∧
    (∀ courseId rv course t0,
      db.reviews.find? (reviewKey user.id courseId) = some rv →
      db.courses.find? (courseKey courseId) = some course →
      db.tutors.find? (tutorKey course.tutorId) = some t0 →
      reviewStatsOk (deleteReview db user courseId).2 courseId = true) := by
  refine ⟨?_, ?_, ?_⟩
  · intro courseId body course enr t0 hc he hex ht
    have ht2 : (writeCourseReviewStats (addReview db user.id courseId body
        (decide (enr.status = EnrollStatus.COMPLETED))) courseId).tutors.find?
          (tutorKey course.tutorId) = some t0 := ht
    simp only [createReview, hs, Option.isNone_some, Bool.false_eq_true, if_false, hc, he, hex,
      Option.isSome_none, ht2]
    rw [reviewStatsOk_applyTutorReviewsInc, reviewStatsOk_writeCourseReviewStats]
  · intro courseId body rv hprev hrv
    simp only [updateReview, hs, Option.isNone_some, Bool.false_eq_true, if_false, hrv]
    cases hbr : body.rating.isSome with
    | false =>
      simp only [hbr, Bool.false_eq_true, if_false]
      have hbn : body.rating = none := by
        cases hb2 : body.rating
        · rfl
        · rw [hb2] at hbr
          exact absurd hbr (by simp)
      unfold reviewStatsOk at hprev ⊢
      rw [courses_applyReviewEdit]
      cases hf : db.courses.find? (courseKey courseId) with
      | none => rfl
      | some course =>
        rw [hf] at hprev
        simp only [Option.all_some, Bool.and_eq_true, decide_eq_true_eq] at hprev
        simp only [Option.all_some, Bool.and_eq_true, decide_eq_true_eq]
        rw [avgPublishedRating_applyReviewEdit_noRating db user.id courseId body hbn,
          publishedCount_applyReviewEdit]
        exact hprev
    | true =>
      simp only [hbr, if_true]
      cases hfc : (applyReviewEdit db user.id courseId body).courses.find?
          (courseKey courseId) with
      | none =>
        simp only [hfc]
        unfold reviewStatsOk
        rw [courses_applyReviewEdit] at hfc ⊢
        rw [hfc]
        rfl
      | some course2 =>
        simp only [hfc]
        rw [courses_applyReviewEdit] at hfc
        unfold reviewStatsOk at hprev
        rw [hfc] at hprev
        simp only [Option.all_some, Bool.and_eq_true, decide_eq_true_eq] at hprev
        simp only [reviewStatsOk, writeCourseAvgOnly]
        rw [find?_updateWhere_self (courseKey courseId)
          (fun c2 =>
            { c2 with averageRating :=
                avgPublishedRating (applyReviewEdit db user.id courseId body) courseId })
          (applyReviewEdit db user.id courseId body).courses (fun x => rfl)]
        rw [courses_applyReviewEdit, hfc]
        simp only [Option.map_some', Option.all_some, Bool.and_eq_true, decide_eq_true_eq]
        constructor
        · rfl
        · show course2.totalReviews =
            ((publishedReviewsOf (applyReviewEdit db user.id courseId body) courseId).length : Int)
          rw [publishedCount_applyReviewEdit]
          exact hprev.2
  · intro courseId rv course t0 hrv hc ht
    have ht2 : (writeCourseReviewStats (removeReview db user.id courseId)
        courseId).tutors.find? (tutorKey course.tutorId) = some t0 := ht
    simp only [deleteReview, hs, Option.isNone_some, Bool.false_eq_true, if_false, hrv, hc, ht2]
    rw [reviewStatsOk_applyTutorReviewsDec, reviewStatsOk_writeCourseReviewStats]

def reviewC2 : Review :=
  { studentId := 1, courseId := 2, rating := 4, title := "t", content := "x",
    isPublished := false, isVerified := false }

def reviewC3 : Review :=
  { studentId := 1, courseId := 3, rating := 2, title := "t3", content := "y",
    isPublished := true, isVerified := false }

def courseB2 : Course :=
  { id := 2, tutorId := 7, title := "B", price := 10, currency := "USD",
    isPublished := true, status := CourseState.PUBLISHED, totalEnrollments := 0,
    totalRevenue := 0, averageRating := 0, totalReviews := 0 }

def reviewDB : DB :=
  { baseDB with courses := [courseA, courseB2, freeCourse], reviews := [reviewC2, reviewC3] }

def rbody : ReviewBody := { rating := 5, title := "great", content := "text" }

def ubody : ReviewUpdateBody := { rating := some 3, title := none, content := none }

theorem review_ops_preserve_stats_witness :
    AuthUser.studentProfile userA = some 100 ∧
    (DB.courses reviewDB).find? (courseKey 1) = some courseA ∧
    findEnrollment reviewDB 1 1 = some enrA ∧
    (DB.reviews reviewDB).find? (reviewKey 1 1) = none ∧
    (DB.tutors reviewDB).find? (tutorKey 7) = some tutorA ∧
    reviewStatsOk reviewDB 2 = true ∧
    (DB.reviews reviewDB).find? (reviewKey 1 2) = some reviewC2 ∧
    (DB.reviews reviewDB).find? (reviewKey 1 3) = some reviewC3 ∧
    (DB.courses reviewDB).find? (courseKey 3) = some freeCourse ∧
    reviewStatsOk (createReview reviewDB userA 1 rbody).2 1 = true ∧
    reviewStatsOk (updateReview reviewDB userA 2 ubody).2 2 = true ∧
    reviewStatsOk (deleteReview reviewDB userA 3).2 3 = true := by
  refine ⟨rfl, by decide, by decide, by decide, by decide, by decide, by decide, by decide,
    by decide, ?_, ?_, ?_⟩
  · exact (review_ops_preserve_stats reviewDB userA 100 rfl).1 1 rbody courseA enrA tutorA
      (by decide) (by decide) (by decide) (by decide)
  · exact (review_ops_preserve_stats reviewDB userA 100 rfl).2.1 2 ubody reviewC2
      (by decide) (by decide)
  · exact (review_ops_preserve_stats reviewDB userA 100 rfl).2.2 3 reviewC3 freeCourse tutorA
      (by decide) (by decide) (by decide)

end EduStack
